import Mathlib

/-!
Verification of the Markov-chain sentence generation and online-learning
subsystem of the slashbot repository (`cogs/spam.py`, `slashbot/custom_cog.py`).

Python strings are modelled as Lean `String` with helper operations defined on
the underlying `List Char`, matching Python string semantics on the ASCII
inputs that appear in this development.
-/

namespace Slashbot

/-- Python whitespace characters stripped by `str.strip()` (ASCII subset). -/
def pyIsSpace (c : Char) : Bool :=
  c = ' ' || c = '\t' || c = '\n' || c = '\r' || c = '\x0b' || c = '\x0c'

/-- Strip leading and trailing whitespace from a list of characters. -/
def pystripL (l : List Char) : List Char :=
  ((l.dropWhile pyIsSpace).reverse.dropWhile pyIsSpace).reverse

/-- Python `str.strip()` (with no argument): trim whitespace at both ends. -/
def pystrip (s : String) : String :=
  String.mk (pystripL s.data)

/-- Does `needle` occur at the very beginning of `hay`? -/
def prefixL : List Char → List Char → Bool
  | [], _ => true
  | _ :: _, [] => false
  | a :: as, b :: bs => a = b && prefixL as bs

/-- Does `needle` occur anywhere inside `hay`?  (Python `needle in hay`.) -/
def containsL (needle : List Char) : List Char → Bool
  | [] => prefixL needle []
  | c :: t => prefixL needle (c :: t) || containsL needle t

/-- Python `needle in hay` substring test on strings. -/
def containsStr (needle hay : String) : Bool :=
  containsL needle.data hay.data

/-- Python `s.startswith(p)` where `p` is a single string (NOT a tuple):
true iff the whole of `p` is a prefix of `s`. -/
def pystartswith (s p : String) : Bool :=
  prefixL p.data s.data

/-- Collect the maximal non-whitespace runs of a character list, accumulating
the current (reversed) run in `cur`. -/
def pywordsAux (cur : List Char) : List Char → List (List Char)
  | [] => if cur.isEmpty then [] else [cur.reverse]
  | c :: t =>
    if pyIsSpace c then
      if cur.isEmpty then pywordsAux [] t else cur.reverse :: pywordsAux [] t
    else pywordsAux (c :: cur) t

/-- Python `str.split()` with no argument: split on whitespace runs,
discarding empty pieces. -/
def pysplit (s : String) : List String :=
  (pywordsAux [] s.data).map String.mk

/-- The Python `string.punctuation` constant. -/
def string_punctuation : String :=
  "!\"#$%&\x27()*+,-./:;<=>?@[\\]^_\x60\x7b|\x7d~"

/-! ## Training Sample Buffer (`Spam.messages_for_chain_update`)

The buffer is a Python dict from `str(message.id)` to the message text; we
model it as an association list in insertion order with unique keys. -/

/-- The per-sentence filter of `Spam.clean_up_messages`: skip empty strings,
skip strings starting with `string.punctuation` (as written in the source:
`sentence.startswith(string.punctuation)`, the whole constant as one prefix),
and skip strings containing `"@"`. -/
def keep_sentence (sentence : String) : Bool :=
  if sentence.length = 0 then false
  else if pystartswith sentence string_punctuation then false
  else if containsStr "@" sentence then false
  else true

/-- Model of `Spam.clean_up_messages`: iterate the buffered texts in order and keep the
learnable ones. -/
def clean_up_messages (buffer : List (String × String)) : List String :=
  (buffer.map Prod.snd).filter keep_sentence

/-- Model of `Spam.listen_to_messages`: store `message.content` under `str(message.id)`
(dict assignment: overwrite in place if the key exists, else append). -/
def listen_to_messages (buffer : List (String × String)) (message_id : Nat)
    (content : String) : List (String × String) :=
  if buffer.any (fun kv => kv.1 == toString message_id) then
    buffer.map (fun kv => if kv.1 == toString message_id then (kv.1, content) else kv)
  else
    buffer ++ [(toString message_id, content)]

/-- Model of `Spam.remove_delete_messages`: if `payload.cached_message` is `None`,
return immediately; otherwise `pop(str(message.id), None)` from the buffer. -/
def remove_delete_messages (buffer : List (String × String))
    (cached_message : Option Nat) : List (String × String) :=
  match cached_message with
  | none => buffer
  | some mid => buffer.filter (fun kv => !(kv.1 == toString mid))

/-! ## Sentence Generator (`Spam.generate_sentence`)

The three sampling methods of the markov model (`make_sentence`,
`make_sentence_with_start`, `make_sentence_that_contains`) live in the vendored
`slashbot.markovify` library, which is not part of the source tree; they are
random, so we model them as an oracle indexed by the loop iteration that
produced the call.  `none` models Python `None`; an `Except.error` models the
`IndexError` / `KeyError` / `ParamError` exceptions caught by the source. -/

structure GenOracle where
  make : Nat → Option String
  with_start : Nat → Except Unit (Option String)
  that_contains : Nat → Except Unit (Option String)

/-- Python truthiness of a string: non-empty. -/
def truthyS (s : String) : Bool := !s.isEmpty

/-- Python truthiness of an `Option String` (`None` and `""` are falsy). -/
def truthyO : Option String → Bool
  | none => false
  | some s => truthyS s

/-- The fallback of lines 339–340 of `cogs/spam.py`: a falsy candidate is
replaced by the static default message. -/
def coerce_default (sentence : Option String) : String :=
  match sentence with
  | some t => if truthyS t then t else "I have no idea what I\x27m doing."
  | none => "I have no idea what I\x27m doing."

/-- One iteration of the generation loop of `Spam.generate_sentence`: pick a
candidate sentence (seeded or not, with the fallbacks of the source to
`make_sentence`, to the seed word itself, and to the static default
message). -/
def genIter (o : GenOracle) (seed_word : Option String) (i : Nat) : String :=
  coerce_default <|
    match seed_word with
    | some sw =>
      if truthyS sw then
        let s0 : Option String :=
          match (if (pysplit sw).length > 1 then o.with_start i else o.that_contains i) with
          | .ok v => v
          | .error _ => o.make i
        if truthyO s0 then s0 else some sw
      else o.make i
    | none => o.make i

/-- The `break` test at the end of each loop iteration: no `"@here"` and no
`"@everyone"`, and (when mentions are disabled) no `"@"` at all. -/
def break_condition (mentions : Bool) (s : String) : Bool :=
  if !containsStr "@here" s && !containsStr "@everyone" s then
    if mentions then true else !containsStr "@" s
  else false

/-- The `for _ in range(attempts)` loop: run iterations starting at index `i`
with `fuel` further iterations allowed; the value of `sentence` when the loop
exits is the last computed candidate. -/
def genLoopAux (o : GenOracle) (seed_word : Option String) (mentions : Bool) :
    Nat → Nat → String
  | 0, i => genIter o seed_word i
  | fuel + 1, i =>
    let s := genIter o seed_word i
    if break_condition mentions s then s else genLoopAux o seed_word mentions fuel (i + 1)

/-- Truncation `sentence[:1020] + "..."` applied when `len(sentence) > 1024`. -/
def pytruncate (s : String) : String :=
  if s.length > 1024 then String.mk (s.data.take 1020 ++ "...".data) else s

/-- Model of `Spam.generate_sentence`.  With `attempts = 0` the Python function raises
`UnboundLocalError` (`sentence` is never assigned), modelled as `.error`; the
post-loop `if not sentence` re-sampling can produce `None`, whose `.strip()`
would raise, also modelled as `.error`. -/
def generate_sentence (o : GenOracle) (attempts : Nat) (seed_word : Option String)
    (mentions : Bool) : Except Unit String :=
  match attempts with
  | 0 => .error ()
  | n + 1 =>
    let s := genLoopAux o seed_word mentions n 0
    let s2 : Option String := if truthyS s then some s else o.make (n + 1)
    match s2 with
    | none => .error ()
    | some t => .ok (pytruncate (pystrip t))

/-! ## Chain Updater (`Spam.update_markov_chain`)

State touched by the update: the Training Sample Buffer, the in-memory chain
(`self.markov.chain`), and the two files `data/chain.pickle` (primary) and
`data/chain.pickle.bak` (backup).  The chain type is abstract; model
construction (`markovify.NewlineText`, which may raise `KeyError`) and chain
merging (`markovify.combine`) are parameters, since the vendored markovify
library is not in the source tree.  A failing `pickle.dump` leaves the primary
partially written. -/

inductive FileData (Chain : Type) where
  | full (c : Chain)
  | torn : FileData Chain
  deriving DecidableEq

structure BotState (Chain : Type) where
  messages_for_chain_update : List (String × String)
  markov_chain : Chain
  primary : FileData Chain
  backup : FileData Chain
  deriving DecidableEq

inductive UOutcome where
  /-- `inter.edit_original_message(content=s)` then return. -/
  | edited (s : String)
  /-- `inter.response.send_message(s)` then return. -/
  | sent (s : String)
  /-- `return None` / falling off the end of the function. -/
  | retNone
  /-- `inter.response.send_message` evaluated with `inter = None`:
  `AttributeError` propagates out of the call. -/
  | attrError
  /-- the `open`/`pickle.dump` of the primary artifact raised. -/
  | dumpError
  deriving DecidableEq

/-- Model of `Spam.update_markov_chain`, with `inter : Bool` recording whether an
interaction object was passed (manual trigger) or `None` (periodic trigger). -/
def update_markov_chain {Chain : Type} (build : List String → Except Unit Chain)
    (combine2 : Chain → Chain → Chain) (dump_ok : Bool) (inter : Bool)
    (st : BotState Chain) : BotState Chain × UOutcome :=
  if st.messages_for_chain_update.length = 0 then
    (st, if inter then .edited "No messages to learn from." else .retNone)
  else
    let messages := clean_up_messages st.messages_for_chain_update
    if messages.length = 0 then
      (st, if inter then .edited "No messages to learn from." else .retNone)
    else
      let st1 := { st with backup := st.primary }
      match build messages with
      | .error _ =>
        if inter then
          (st1, .sent "Something bad happened when trying to update the Markov chain.")
        else
          (st1, .attrError)
      | .ok new_model =>
        let combined := combine2 st1.markov_chain new_model
        let st2 := { st1 with messages_for_chain_update := [], markov_chain := combined }
        if dump_ok then
          ({ st2 with primary := .full combined },
           if inter then
             .edited ("Markov chain updated with " ++ toString messages.length ++ " new messages.")
           else .retNone)
        else
          ({ st2 with primary := .torn }, .dumpError)

/-! ### The persistence step as a sequence of file operations

Lines 186 and 196–197 of `cogs/spam.py` perform, in order: `shutil.copy2` of
the primary to the backup, then `open("data/chain.pickle", "wb")` (truncating
the primary in place), then `pickle.dump` of the merged chain into it.  A crash
may stop execution after any prefix of these operations. -/

inductive FileOp (Chain : Type) where
  | copyToBackup
  | truncatePrimary
  | writePrimary (c : Chain)

structure FS (Chain : Type) where
  primary : FileData Chain
  backup : FileData Chain
  deriving DecidableEq

def applyOp {Chain : Type} (fs : FS Chain) : FileOp Chain → FS Chain
  | .copyToBackup => { fs with backup := fs.primary }
  | .truncatePrimary => { fs with primary := .torn }
  | .writePrimary c => { fs with primary := .full c }

def runOps {Chain : Type} (fs : FS Chain) (ops : List (FileOp Chain)) : FS Chain :=
  ops.foldl applyOp fs

/-- The file operations of one persistence pass writing `combined`. -/
def persistOps {Chain : Type} (combined : Chain) : List (FileOp Chain) :=
  [.copyToBackup, .truncatePrimary, .writePrimary combined]

/-! ## Pregeneration Cache (`SlashbotCog.get_generated_sentence`)

`self.markov_sentences` is a dict from seed word to a Python list of
pre-generated sentences, modelled as an association list; `gen` stands for
`slashbot.markov.generate_sentence(MARKOV_MODEL, seed_word)` (not in the
source tree). -/

def lookupCache (cache : List (String × List String)) (seed : String) :
    Option (List String) :=
  (cache.find? (fun kv => kv.1 == seed)).map Prod.snd

/-- Model of `SlashbotCog.get_generated_sentence`: if the seed word has no queue, fall
back to on-demand generation; otherwise `list.pop()` — remove and return the
LAST element — catching `IndexError` on an empty list with the same
fallback. -/
def get_generated_sentence (gen : String → String)
    (cache : List (String × List String)) (seed : String) :
    String × List (String × List String) :=
  match lookupCache cache seed with
  | none => (gen seed, cache)
  | some q =>
    match q.getLast? with
    | none => (gen seed, cache)
    | some s =>
      (s, cache.map (fun kv => if kv.1 == seed then (kv.1, q.dropLast) else kv))

/-! ## Chain Model merging -/

/-- A Markov chain model: its order and its transition table, read as the
occurrence count of each (state, next-token) key; count zero means the key is
absent. -/
structure ChainModel (K : Type) where
  order : Nat
  table : K → Nat

/-- Modelled from the spec: `markovify.combine` (the vendored markovify
library is not in the source tree).  Merging requires all inputs to share the
same order; the transition table of the result is the per-key count-wise sum
of the input tables (union of keys, added counts); inputs of differing order fail
with an incompatible-model error. -/
def combine {K : Type} : List (ChainModel K) → Except Unit (ChainModel K)
  | [] => .error ()
  | m :: rest =>
    if rest.all (fun x => x.order == m.order) then
      .ok ⟨m.order, fun k => (m :: rest).foldl (fun acc x => acc + x.table k) 0⟩
    else .error ()

/-! ## Theorems -/

/-- C3: the training drain `clean_up_messages` is claimed to exclude empty
texts, texts whose first character is punctuation, and texts containing `"@"`,
in particular excluding `"!ignore this"`.  Evaluating the code at that input:
because the source tests `sentence.startswith(string.punctuation)` with the
whole punctuation constant as a single prefix string (not a tuple of
characters), `"!ignore this"` passes the filter and is returned, contradicting
the claim (and the comment in the source itself, that command-like messages starting
with punctuation are ignored). -/
theorem c3_punctuation_filter_ineffective :
    clean_up_messages
      [("1", "@everyone hi"), ("2", "!ignore this"), ("3", ""), ("4", "hello world")] =
      ["!ignore this", "hello world"] := by
  decide

/-- C10: a deletion event whose message is not in the platform cache
(`payload.cached_message is None`) leaves the Training Sample Buffer
unchanged, so every recorded entry stays eligible for the next training drain;
only a deletion carrying a cached message removes the entry of that message. -/
theorem c10_uncached_delete_preserves_buffer :
    ∀ (buffer : List (String × String)),
      remove_delete_messages buffer none = buffer ∧
      clean_up_messages (remove_delete_messages buffer none) = clean_up_messages buffer ∧
      ∀ mid : Nat, remove_delete_messages buffer (some mid) =
        buffer.filter (fun kv => !(kv.1 == toString mid)) := by
  intro buffer
  exact ⟨rfl, rfl, fun _ => rfl⟩

/-- Helper: an empty filtered snapshot makes the update an exact no-op. -/
theorem update_noop_of_empty_snapshot {Chain : Type}
    (build : List String → Except Unit Chain) (combine2 : Chain → Chain → Chain)
    (dump_ok inter : Bool) (st : BotState Chain)
    (h : clean_up_messages st.messages_for_chain_update = []) :
    update_markov_chain build combine2 dump_ok inter st =
      (st, if inter then .edited "No messages to learn from." else .retNone) := by
  unfold update_markov_chain
  by_cases hb : st.messages_for_chain_update.length = 0
  · simp [hb]
  · simp [hb, h]

/-- C6: when the filtered snapshot is empty (empty buffer, or every entry
filtered out), `update_markov_chain` changes no state at all — buffer,
in-memory chain, primary artifact and backup are untouched — and reports
"No messages to learn from." to the manual caller (the periodic call returns
`None`). -/
theorem c6_empty_snapshot_noop :
    ∀ (Chain : Type) (build : List String → Except Unit Chain)
      (combine2 : Chain → Chain → Chain) (dump_ok inter : Bool) (st : BotState Chain),
      clean_up_messages st.messages_for_chain_update = [] →
      update_markov_chain build combine2 dump_ok inter st =
        (st, if inter then .edited "No messages to learn from." else .retNone) := by
  intro Chain build combine2 dump_ok inter st h
  exact update_noop_of_empty_snapshot build combine2 dump_ok inter st h

/-- Witness for C6 at a concrete state: a buffer whose single entry contains
`"@"` is filtered to the empty snapshot, and the update is a reported
no-op. -/
theorem c6_empty_snapshot_noop_witness :
    clean_up_messages [("1", "@abc")] = [] ∧
    update_markov_chain (fun _ => Except.ok 0) Nat.add true true
        ⟨[("1", "@abc")], 5, .full 5, .full 5⟩ =
      (⟨[("1", "@abc")], 5, .full 5, .full 5⟩, .edited "No messages to learn from.") :=
  ⟨by decide,
   c6_empty_snapshot_noop Nat (fun _ => Except.ok 0) Nat.add true true
     ⟨[("1", "@abc")], 5, .full 5, .full 5⟩ (by decide)⟩

/-- C2 counterexample: the claim says that on every failure of
`update_markov_chain` the Training Sample Buffer still holds every entry it
held at the start — in particular on a failure during persistence.  But the
source clears the buffer *before* `pickle.dump`: with one learnable buffered
message and a failing dump, the call fails (`dumpError`) and the buffer is
already empty, no longer containing its entry. -/
theorem c2_buffer_lost_on_persistence_failure :
    (update_markov_chain (fun ms => Except.ok ms.length) Nat.add false false
        ⟨[("1", "hello world")], 5, .full 5, .full 5⟩).2 = .dumpError ∧
    (update_markov_chain (fun ms => Except.ok ms.length) Nat.add false false
        ⟨[("1", "hello world")], 5, .full 5, .full 5⟩).1.messages_for_chain_update = [] := by
  decide

/-- C2 (amended): the buffer survives an empty-snapshot no-op and a
model-construction failure, but it is cleared as soon as the merged chain is
installed in memory — before persistence — so it is empty after any
construction success on a non-empty snapshot, even when the dump fails. -/
theorem c2_buffer_retention_amended :
    ∀ (Chain : Type) (build : List String → Except Unit Chain)
      (combine2 : Chain → Chain → Chain) (dump_ok inter : Bool) (st : BotState Chain),
      (clean_up_messages st.messages_for_chain_update = [] →
        (update_markov_chain build combine2 dump_ok inter st).1.messages_for_chain_update =
          st.messages_for_chain_update) ∧
      (∀ e, build (clean_up_messages st.messages_for_chain_update) = .error e →
        (update_markov_chain build combine2 dump_ok inter st).1.messages_for_chain_update =
          st.messages_for_chain_update) ∧
      (∀ c, clean_up_messages st.messages_for_chain_update ≠ [] →
        build (clean_up_messages st.messages_for_chain_update) = .ok c →
        (update_markov_chain build combine2 dump_ok inter st).1.messages_for_chain_update =
          []) := by
  intro Chain build combine2 dump_ok inter st
  refine ⟨fun h => ?_, fun e he => ?_, fun c hne hok => ?_⟩
  · rw [update_noop_of_empty_snapshot build combine2 dump_ok inter st h]
  · unfold update_markov_chain
    by_cases hb : st.messages_for_chain_update.length = 0
    · simp [hb]
    · simp only [hb, if_false, ite_false]
      by_cases hm : (clean_up_messages st.messages_for_chain_update).length = 0
      · simp [hm]
      · simp [hm, he]
        split <;> rfl
  · unfold update_markov_chain
    by_cases hb : st.messages_for_chain_update.length = 0
    · exfalso
      apply hne
      have hnil : st.messages_for_chain_update = [] := List.length_eq_zero.mp hb
      rw [hnil]
      rfl
    · simp only [hb, if_false, ite_false]
      by_cases hm : (clean_up_messages st.messages_for_chain_update).length = 0
      · exact absurd (List.length_eq_zero.mp hm) hne
      · simp [hm, hok]
        split <;> rfl

/-- Witness for C2 (amended) at a concrete input: a model-construction failure
on a non-empty snapshot leaves the buffer entry in place. -/
theorem c2_buffer_retention_amended_witness :
    (fun (_ : List String) => (Except.error () : Except Unit Nat))
        (clean_up_messages [("1", "hello world")]) = Except.error () ∧
    (update_markov_chain (fun _ => Except.error ()) Nat.add true false
        ⟨[("1", "hello world")], 5, .full 5, .full 5⟩).1.messages_for_chain_update =
      [("1", "hello world")] :=
  ⟨rfl,
   (c2_buffer_retention_amended Nat (fun _ => Except.error ()) Nat.add true false
     ⟨[("1", "hello world")], 5, .full 5, .full 5⟩).2.1 () rfl⟩

/-- C5: evaluating `update_markov_chain` at a failing model construction (the
`KeyError` path).  On the manual path (`inter` present) the "something bad
happened" message is surfaced and buffer, in-memory chain and primary artifact
are exactly as before the call.  But on the periodic path (`inter = None`) the
handler in the source still evaluates `inter.response.send_message`, raising
`AttributeError` — the claim that the periodic trigger handles this failure
without raising (as the docstring of the function promises: with no
interaction it "does not respond to any interactions") is violated; the state
is nevertheless left intact. -/
theorem c5_build_failure_paths :
    update_markov_chain (fun _ => Except.error ()) Nat.add true false
        ⟨[("1", "hello world")], 5, .full 5, .full 5⟩ =
      (⟨[("1", "hello world")], 5, .full 5, .full 5⟩, .attrError) ∧
    update_markov_chain (fun _ => Except.error ()) Nat.add true true
        ⟨[("1", "hello world")], 5, .full 5, .full 5⟩ =
      (⟨[("1", "hello world")], 5, .full 5, .full 5⟩,
        .sent "Something bad happened when trying to update the Markov chain.") := by
  decide

/-- C9 counterexample: the claim says the primary artifact is "written to
temp/backup then atomically replaced, never left partially written".  The
source truncates and rewrites `data/chain.pickle` in place: stopping after the
first two file operations (backup copy, then `open("...", "wb")` truncation)
leaves the primary torn — neither the old nor the new artifact. -/
theorem c9_primary_torn_midwrite :
    (runOps ⟨FileData.full 0, FileData.torn⟩ ((persistOps (1 : Nat)).take 2)).primary =
      FileData.torn ∧
    FileData.torn ≠ FileData.full (0 : Nat) ∧
    FileData.torn ≠ FileData.full (1 : Nat) := by
  decide

/-- C9 (amended): the backup copy is taken before the primary is overwritten
in place (no temp-file atomic rename), so although a crash mid-write can leave
the primary partially written, at every crash point a full artifact survives:
the primary still holds the old chain, or already holds the new one, or the
backup holds the old one. -/
theorem c9_backup_before_overwrite_amended :
    ∀ (Chain : Type) (oldc newc : Chain) (b0 : FileData Chain) (k : Nat),
      (runOps ⟨FileData.full oldc, b0⟩ ((persistOps newc).take k)).primary =
          FileData.full oldc ∨
      (runOps ⟨FileData.full oldc, b0⟩ ((persistOps newc).take k)).primary =
          FileData.full newc ∨
      (runOps ⟨FileData.full oldc, b0⟩ ((persistOps newc).take k)).backup =
          FileData.full oldc := by
  intro Chain oldc newc b0 k
  match k with
  | 0 => exact Or.inl rfl
  | 1 => exact Or.inl rfl
  | 2 => exact Or.inr (Or.inr rfl)
  | n + 3 =>
    refine Or.inr (Or.inl ?_)
    simp [persistOps, runOps, applyOp, List.take_nil]

/-- Updating every entry of the cache whose key equals `seed` leaves the
looked-up queue for `seed` equal to the new queue. -/
theorem lookupCache_set (cache : List (String × List String)) (seed : String)
    (q newq : List String) (hq : lookupCache cache seed = some q) :
    lookupCache (cache.map (fun kv => if kv.1 == seed then (kv.1, newq) else kv)) seed =
      some newq := by
  induction cache with
  | nil => simp [lookupCache] at hq
  | cons kv rest ih =>
    cases h : (kv.1 == seed) with
    | true =>
      simp only [lookupCache, List.map_cons, h, if_true]
      rw [List.find?_cons_of_pos _ (by simpa using h)]
      rfl
    | false =>
      simp only [lookupCache, List.map_cons, h, if_false]
      rw [List.find?_cons_of_neg _ (by simpa using h)]
      apply ih
      have := hq
      unfold lookupCache at this ⊢
      rwa [List.find?_cons_of_neg _ (by simpa using h)] at this

/-- C4 counterexample: for the seed word `"w"` with queue `["s1", "s2"]`
(`"s1"` enqueued first), the FIFO reading of the claim requires the cache read
to return `"s1"`; the `list.pop()` in the source removes from the *end* and returns
`"s2"`. -/
theorem c4_fifo_refuted :
    (get_generated_sentence (fun _ => "GEN") [("w", ["s1", "s2"])] "w").1 = "s2" ∧
    ¬(get_generated_sentence (fun _ => "GEN") [("w", ["s1", "s2"])] "w").1 = "s1" := by
  decide

/-- C4 (amended): for a seed word with a non-empty queue, the cache read pops
and returns the queued sentences in LIFO order — the most recently enqueued
(last) element first, leaving the queue without its last element — and never
invokes the sentence generator (the result is the same for every generator);
once the queue is exhausted or the seed word has no queue, it falls back to
on-demand generation, returning the generated result directly with the cache
unchanged (the result is not enqueued). -/
theorem c4_cache_pop_lifo_amended :
    ∀ (gen : String → String) (cache : List (String × List String)) (seed : String),
      (∀ (q : List String) (hq : lookupCache cache seed = some q) (hne : q ≠ []),
        (get_generated_sentence gen cache seed).1 = q.getLast hne ∧
        (∀ gen2 : String → String,
          get_generated_sentence gen2 cache seed = get_generated_sentence gen cache seed) ∧
        lookupCache (get_generated_sentence gen cache seed).2 seed = some q.dropLast) ∧
      ((lookupCache cache seed = none ∨ lookupCache cache seed = some []) →
        get_generated_sentence gen cache seed = (gen seed, cache)) := by
  intro gen cache seed
  constructor
  · intro q hq hne
    have hlast : q.getLast? = some (q.getLast hne) := List.getLast?_eq_getLast q hne
    refine ⟨?_, fun gen2 => ?_, ?_⟩
    · simp only [get_generated_sentence, hq, hlast]
    · simp only [get_generated_sentence, hq, hlast]
    · simp only [get_generated_sentence, hq, hlast]
      exact lookupCache_set cache seed q q.dropLast hq
  · intro h
    rcases h with h | h <;> unfold get_generated_sentence <;> rw [h] <;> rfl

/-- Witness for C4 (amended) at a concrete cache: the queue `["s1", "s2"]` for
seed `"w"` yields `"s2"`. -/
theorem c4_cache_pop_lifo_amended_witness :
    lookupCache [("w", ["s1", "s2"])] "w" = some ["s1", "s2"] ∧
    (get_generated_sentence (fun s => s) [("w", ["s1", "s2"])] "w").1 = "s2" :=
  ⟨rfl, by
    have h := ((c4_cache_pop_lifo_amended (fun s => s) [("w", ["s1", "s2"])] "w").1
      ["s1", "s2"] rfl (by decide)).1
    simpa using h⟩

/-- C7: chain merging is commutative and associative.  For models `A`, `B`,
`C` of equal order, `combine [A, B, C]`, `combine [combine [A, B], C]` and
`combine [C, combine [B, A]]` all succeed and produce models with the same
order and the same transition table (per-key count-wise sum). -/
theorem c7_combine_comm_assoc :
    ∀ (K : Type) (A B C : ChainModel K), B.order = A.order → C.order = A.order →
      ∃ (M1 AB M2 BA M3 : ChainModel K),
        combine [A, B, C] = .ok M1 ∧
        combine [A, B] = .ok AB ∧ combine [AB, C] = .ok M2 ∧
        combine [B, A] = .ok BA ∧ combine [C, BA] = .ok M3 ∧
        M1.order = M2.order ∧ M1.order = M3.order ∧
        M1.table = M2.table ∧ M1.table = M3.table := by
  intro K A B C hB hC
  have hBb : (B.order == A.order) = true := by simp [hB]
  have hCb : (C.order == A.order) = true := by simp [hC]
  refine ⟨⟨A.order, fun k => 0 + A.table k + B.table k + C.table k⟩,
          ⟨A.order, fun k => 0 + A.table k + B.table k⟩, ?M2,
          ⟨B.order, fun k => 0 + B.table k + A.table k⟩, ?M3,
          ?h1, ?h2, ?h3, ?h4, ?h5, ?h6, ?h7, ?h8, ?h9⟩
  case M2 => exact ⟨A.order, fun k => 0 + (0 + A.table k + B.table k) + C.table k⟩
  case M3 => exact ⟨C.order, fun k => 0 + C.table k + (0 + B.table k + A.table k)⟩
  case h1 => simp [combine, hBb, hCb, List.all]
  case h2 => simp [combine, hBb, List.all]
  case h3 => simp [combine, hCb, List.all]
  case h4 => simp [combine, hB, List.all]
  case h5 => simp [combine, hB, hC, List.all]
  case h6 => rfl
  case h7 => exact hC.symm
  case h8 =>
    funext k
    dsimp only
    omega
  case h9 =>
    funext k
    dsimp only
    omega

/-- Witness for C7 at three concrete order-2 models over `Bool` keys. -/
theorem c7_combine_comm_assoc_witness :
    ∃ (M1 AB M2 BA M3 : ChainModel Bool),
      combine [(⟨2, fun _ => 1⟩ : ChainModel Bool), ⟨2, fun b => if b then 3 else 0⟩,
          ⟨2, fun _ => 5⟩] = .ok M1 ∧
      combine [(⟨2, fun _ => 1⟩ : ChainModel Bool), ⟨2, fun b => if b then 3 else 0⟩] =
          .ok AB ∧
      combine [AB, ⟨2, fun _ => 5⟩] = .ok M2 ∧
      combine [(⟨2, fun b => if b then 3 else 0⟩ : ChainModel Bool), ⟨2, fun _ => 1⟩] =
          .ok BA ∧
      combine [(⟨2, fun _ => 5⟩ : ChainModel Bool), BA] = .ok M3 ∧
      M1.order = M2.order ∧ M1.order = M3.order ∧
      M1.table = M2.table ∧ M1.table = M3.table :=
  c7_combine_comm_assoc Bool ⟨2, fun _ => 1⟩ ⟨2, fun b => if b then 3 else 0⟩
    ⟨2, fun _ => 5⟩ rfl rfl

/-- The default-message fallback always yields a truthy (non-empty) string. -/
theorem truthyS_coerce_default (s : Option String) :
    truthyS (coerce_default s) = true := by
  cases s with
  | none => rfl
  | some t =>
    unfold coerce_default
    by_cases h : truthyS t = true
    · simpa [h] using h
    · simp only [eq_false_of_ne_true h, if_false]
      rfl

/-- Every loop iteration produces a truthy candidate. -/
theorem truthyS_genIter (o : GenOracle) (seed_word : Option String) (i : Nat) :
    truthyS (genIter o seed_word i) = true := by
  unfold genIter
  exact truthyS_coerce_default _

/-- The value of `sentence` at loop exit is truthy. -/
theorem truthyS_genLoopAux (o : GenOracle) (seed_word : Option String)
    (mentions : Bool) (fuel i : Nat) :
    truthyS (genLoopAux o seed_word mentions fuel i) = true := by
  induction fuel generalizing i with
  | zero => exact truthyS_genIter o seed_word i
  | succ n ih =>
    unfold genLoopAux
    by_cases h : break_condition mentions (genIter o seed_word i) = true
    · simp [h, truthyS_genIter]
    · simp [eq_false_of_ne_true h, ih]

/-- Truncation keeps the result within the presentable bound. -/
theorem pytruncate_length (s : String) : (pytruncate s).length ≤ 1024 := by
  unfold pytruncate
  by_cases h : s.length > 1024
  · simp only [h, if_true]
    show (s.data.take 1020 ++ "...".data).length ≤ 1024
    rw [List.length_append, List.length_take]
    have : ("...".data).length = 3 := rfl
    omega
  · simp only [h, if_false]
    omega

/-- C1: evaluating `generate_sentence` with mentions disabled at a model whose
`make_sentence` always yields `"@here friends"`: every attempt fails the
mention check, and after the budget is exhausted the last candidate is
returned as-is — the final `.strip()` removes only whitespace, no mention
substring is stripped — so the result still contains `"@here"`, contradicting
the claim (and the comment in the source itself: no matter what, do not allow
at-here and at-everyone mentions). -/
theorem c1_mention_substring_escapes :
    generate_sentence
        ⟨fun _ => some "@here friends", fun _ => .error (), fun _ => .error ()⟩
        10 none false = .ok "@here friends" ∧
    containsStr "@here" "@here friends" = true := by
  constructor
  · rfl
  · decide

/-- C8 counterexample: the claim says the generator never returns an empty
string, even for a whitespace seed.  With seed `" "` and a sparse chain
(every markov call fails or yields `None`), the loop falls back to the seed
word itself, which passes the mention check, and the final `.strip()` then
reduces it to the empty string. -/
theorem c8_empty_result :
    generate_sentence ⟨fun _ => none, fun _ => .error (), fun _ => .error ()⟩ 10
        (some " ") false = .ok "" := by
  rfl

/-- C8 (amended): for every invocation with a positive attempt budget, the
generator returns without raising; the result is the whitespace-strip of the
final candidate, truncated to at most 1024 units with the `"..."` marker
appended when cut, and its length never exceeds 1024.  The non-emptiness part
of the claim is dropped: the static-default and seed-word fallbacks are
applied before the final whitespace-strip, so a whitespace-only candidate
(e.g. a whitespace seed over a sparse chain) strips to the empty string. -/
theorem c8_generate_bounded_amended :
    ∀ (o : GenOracle) (attempts : Nat) (seed_word : Option String) (mentions : Bool),
      1 ≤ attempts →
      ∃ n : Nat, attempts = n + 1 ∧
        generate_sentence o attempts seed_word mentions =
          .ok (pytruncate (pystrip (genLoopAux o seed_word mentions n 0))) ∧
        (pytruncate (pystrip (genLoopAux o seed_word mentions n 0))).length ≤ 1024 := by
  intro o attempts seed_word mentions h
  match attempts, h with
  | n + 1, _ =>
    refine ⟨n, rfl, ?_, pytruncate_length _⟩
    unfold generate_sentence
    simp [truthyS_genLoopAux]

/-- Witness for C8 (amended) at a concrete oracle and budget. -/
theorem c8_generate_bounded_amended_witness :
    1 ≤ 10 ∧
    ∃ n : Nat, 10 = n + 1 ∧
      generate_sentence ⟨fun _ => some "hello", fun _ => .error (), fun _ => .error ()⟩
          10 none false =
        .ok (pytruncate (pystrip (genLoopAux
          ⟨fun _ => some "hello", fun _ => .error (), fun _ => .error ()⟩ none false n 0))) ∧
      (pytruncate (pystrip (genLoopAux
          ⟨fun _ => some "hello", fun _ => .error (), fun _ => .error ()⟩ none false n 0))).length ≤
        1024 :=
  ⟨by decide,
   c8_generate_bounded_amended
     ⟨fun _ => some "hello", fun _ => .error (), fun _ => .error ()⟩ 10 none false
     (by decide)⟩

end Slashbot
